import Mathlib

/-
Shallow embedding of `plugins/modules/ganeti_instance.py` from the
`rrey/collection_ganeti` Ansible collection.

Modelling conventions:
- Time is modelled as natural numbers (`time.time()` returns a float in
  Python; the claims only need additive/order reasoning, so Nat suffices).
  A poll of the job endpoint takes an explicit in-flight duration `d`;
  `time.sleep(2)` advances the clock by exactly 2.
- The potentially infinite `while True` poll loop of `wait_for_job` is
  driven by a finite script of responses; a script too short for the run
  yields `none` ("the loop would keep polling past the script").
- Python dicts (disk / nic specifications) are association lists without
  duplicate keys; iteration order is list order, as in Python 3.7+ dicts.
- `module.fail_json` terminates the module; it is modelled as the
  `Except.error` path carrying the failure message.  A `TypeError` raised
  by iterating `None` is a distinct error constructor.
- Every network interaction (instance GET, job submission, job GET) is
  recorded in a trace so that frame claims ("no further network call")
  are provable.
-/

set_option autoImplicit false

deriving instance DecidableEq for Except

namespace Ganeti

/- An apostrophe character, used in the message of run_module's
   precondition error ("can't set to ..."). -/
def apos : String := String.singleton (Char.ofNat 39)

/- ## Job waiter (`wait_for_job`, source lines 489-515) -/

/- The body of the job GET response: HTTP status code, job status string,
   and the optional `opresult` field of the JSON payload. -/
structure JobResp where
  code : Nat
  status : String
  opresult : Option (List (List String))
deriving Repr, DecidableEq

/- Terminal job statuses, source line 502. -/
def TERMINAL : List String := ["canceled", "error", "success"]

/- Outcome of a finished wait: the returned pair, the clock value at the
   moment of return, the number of polls performed, and the in-flight
   duration of the poll that produced the return. -/
structure WaitOutcome where
  success : Bool
  message : String
  finish : Nat
  polls : Nat
  lastDur : Nat
deriving Repr, DecidableEq

/- Message of source line 498. -/
def httpErrMsg (job_id code : Nat) : String :=
  "Error waiting for job " ++ toString job_id ++ ", response code " ++ toString code

/- Message of source line 504.  The two `time.time()` calls of the source
   line are the same instant in the model. -/
def timeoutMsg (job_id ts_start timeout now : Nat) : String :=
  "Timeout waiting for job " ++ toString job_id ++ ", ts_start " ++ toString ts_start ++
    " timeout " ++ toString timeout ++ " time.time() " ++ toString now

/- Messages of source lines 509 and 511.  The source reads
   `js['opresult'][0][1]`: the SECOND element of the FIRST opresult entry
   (Python would raise IndexError if it is missing; theorems about this
   path carry the hypothesis that the entry has at least two elements). -/
def failMsg (job_id : Nat) (js : JobResp) : String :=
  match js.opresult with
  | some l =>
    if l.length > 0 then
      "Job " ++ toString job_id ++ " failed: " ++ ((l.headD []).getD 1 "")
    else
      "Job " ++ toString job_id ++ " failed with status \"" ++ js.status ++ "\""
  | none =>
    "Job " ++ toString job_id ++ " failed with status \"" ++ js.status ++ "\""

/- The poll loop of `wait_for_job`.  `t` is the current clock, `n` the
   number of polls already performed.  Each script entry is a pair of the
   poll's in-flight duration and the response. -/
def waitAux (job_id timeout ts_start : Nat) :
    Nat → Nat → List (Nat × JobResp) → Option WaitOutcome
  | _, _, [] => none
  | t, n, (d, js) :: rest =>
    let t1 := t + d
    if js.code ≠ 200 then
      some ⟨false, httpErrMsg job_id js.code, t1, n + 1, d⟩
    else if js.status ∉ TERMINAL then
      if ts_start + timeout < t1 then
        some ⟨false, timeoutMsg job_id ts_start timeout t1, t1, n + 1, d⟩
      else
        waitAux job_id timeout ts_start (t1 + 2) (n + 1) rest
    else if js.status ≠ "success" then
      some ⟨false, failMsg job_id js, t1, n + 1, d⟩
    else
      some ⟨true, "Success", t1, n + 1, d⟩

/- `wait_for_job(module, job_id)`: `ts_start = time.time()` on entry, and
   the first poll starts immediately. -/
def wait_for_job (timeout job_id ts_start : Nat) (polls : List (Nat × JobResp)) :
    Option WaitOutcome :=
  waitAux job_id timeout ts_start ts_start 0 polls

/- Substring test on strings, used to state "message contains ...". -/
def isPrefixL : List Char → List Char → Bool
  | [], _ => true
  | _ :: _, [] => false
  | a :: as, b :: bs => a == b && isPrefixL as bs

def isInfixL (pat : List Char) : List Char → Bool
  | [] => isPrefixL pat []
  | b :: bs => isPrefixL pat (b :: bs) || isInfixL pat bs

def strContains (s pat : String) : Bool :=
  isInfixL pat.data s.data

/- ## Network-call trace and failure kinds -/

/- One network interaction of a run: the instance GET of `run_module`
   (source lines 561 and 596), a job submission (the POST/PUT/DELETE of an
   action function), or a job GET of `wait_for_job`. -/
inductive Call
  | getInstance
  | submit (op : String)
  | getJob
deriving Repr, DecidableEq

/- How a run terminates abnormally: `failJson` models `module.fail_json`
   (which exits the module), `typeError` a Python `TypeError`. -/
inductive Failure
  | failJson (msg : String)
  | typeError (msg : String)
deriving Repr, DecidableEq

/- Response to a job-submitting request: HTTP code, body text (used in
   the error message), and `int(response.text)` when the code is 200. -/
structure SubmitResp where
  code : Nat
  text : String
  jobId : Nat
deriving Repr, DecidableEq

/- Message of the `response.status_code != 200` branches of the action
   functions (source lines 399, 419, 438, 457, 476). -/
def apiFailMsg (r : SubmitResp) : String :=
  "API call failed with code " ++ toString r.code ++ ": " ++ r.text

/- The job GET calls performed by a finished wait. -/
def jobCalls (o : WaitOutcome) : List Call :=
  List.replicate o.polls Call.getJob

/- ## Module parameters -/

/- A disk or nic specification: a Python dict, i.e. an association list
   (no duplicate keys, iteration in insertion order). -/
abbrev Disk : Type := List (String × String)

abbrev Nic : Type := List (String × String)

/- An osparams value: a scalar, or a compound value (Python dict / list),
   which `instance_create` rejects. -/
inductive OsVal
  | scalar (s : String)
  | compound
deriving Repr, DecidableEq

/- The module parameters used by the modelled code paths.  `disks` and
   `nics` are declared `type=list, required=False` with no default in the
   source argument spec (lines 536 and 540), so an omitted parameter is
   `None`, modelled as `none`. -/
structure Params where
  name : String
  state : String
  wait : Bool
  job_timeout : Nat
  disk_template : String
  hypervisor : String
  os_type : Option String
  pnode : Option String
  snode : Option String
  memory : Option Nat
  vcpus : Option Nat
  disks : Option (List Disk)
  nics : Option (List Nic)
  osparams : List (String × OsVal)
deriving Repr, DecidableEq

/- Default of the `disks` argument declaration (source line 536): no
   explicit default, hence `None`. -/
def disks_default : Option (List Disk) := none

/- Default of the `nics` argument declaration (source line 540). -/
def nics_default : Option (List Nic) := none

/- ## Spec translation inside `instance_create` (source lines 326-395) -/

/- Python dict lookup on an association list. -/
def getKey (key : String) : List (String × String) → Option String
  | [] => none
  | (k, v) :: rest => if k = key then some v else getKey key rest

/- Source line 344. -/
def DISK_PARAMETERS : List String := ["size", "mode", "name", "provider"]

/- The non-ext key loop of source lines 356-360: the first key outside
   `DISK_PARAMETERS` aborts with `fail_json`; otherwise every key/value
   pair is copied. -/
def diskCheck (i : Nat) : List (String × String) → Except Failure (List (String × String))
  | [] => .ok []
  | (k, v) :: rest =>
    if k ∈ DISK_PARAMETERS then
      match diskCheck i rest with
      | .error e => .error e
      | .ok ps => .ok ((k, v) :: ps)
    else
      .error (.failJson ("Invalid disk parameter for disk #" ++ toString i ++ ": " ++ k ++
        " is not a valid key"))

/- Translation of one disk, source lines 349-360: missing `size` is
   rejected; `provider == "ext"` forwards the whole dict verbatim;
   otherwise only keys in `DISK_PARAMETERS` are accepted. -/
def diskTranslate (i : Nat) (d : Disk) : Except Failure Disk :=
  if (getKey "size" d).isNone then
    .error (.failJson ("No \"size\" given for disk #" ++ toString i))
  else if getKey "provider" d = some "ext" then
    .ok d
  else
    diskCheck i d

/- The disk loop of source lines 345-363: `disk_i` advances only when a
   non-empty translated disk is appended. -/
def disksLoop : Nat → List Disk → Except Failure (List Disk)
  | _, [] => .ok []
  | i, d :: rest =>
    match diskTranslate i d with
    | .error e => .error e
    | .ok ps =>
      if ps.length ≠ 0 then
        match disksLoop (i + 1) rest with
        | .error e => .error e
        | .ok acc => .ok (ps :: acc)
      else
        disksLoop i rest

/- Source line 373. -/
def NIC_PARAMETERS : List String :=
  ["bridge", "name", "ip", "vlan", "mac", "link", "mode", "network"]

/- Source line 376. -/
def NIC_MODES : List String := ["routed", "bridged", "openvswitch"]

/- The nic key loop of source lines 372-379. -/
def nicCheck (i : Nat) : List (String × String) → Except Failure (List (String × String))
  | [] => .ok []
  | (k, v) :: rest =>
    if k ∉ NIC_PARAMETERS then
      .error (.failJson ("Invalid nic parameter for nic #" ++ toString i ++ ": " ++ k ++
        " is not a valid key"))
    else if k = "mode" ∧ v ∉ NIC_MODES then
      .error (.failJson ("Invalid mode " ++ v ++ " for nic " ++ toString i))
    else
      match nicCheck i rest with
      | .error e => .error e
      | .ok ps => .ok ((k, v) :: ps)

/- The nic loop of source lines 368-383. -/
def nicsLoop : Nat → List Nic → Except Failure (List Nic)
  | _, [] => .ok []
  | i, nic :: rest =>
    match nicCheck i nic with
    | .error e => .error e
    | .ok ps =>
      if ps.length ≠ 0 then
        match nicsLoop (i + 1) rest with
        | .error e => .error e
        | .ok acc => .ok (ps :: acc)
      else
        nicsLoop i rest

/- The osparams loop of source lines 388-395: a dict or list value is
   rejected with `fail_json`. -/
def osparamsCheck : List (String × OsVal) → Except Failure (List (String × String))
  | [] => .ok []
  | (k, v) :: rest =>
    match v with
    | .compound => .error (.failJson ("Got complex type for osparams key " ++ k))
    | .scalar s =>
      match osparamsCheck rest with
      | .error e => .error e
      | .ok ps => .ok ((k, s) :: ps)

/- The creation payload of source lines 327-341 and 364-395. -/
structure CreatePayload where
  disk_template : String
  hypervisor : String
  instance_name : String
  os_type : String
  memory : Option Nat
  vcpus : Option Nat
  pnode : Option String
  snode : Option String
  disks : Option (List Disk)
  nics : Option (List Nic)
  osparams : Option (List (String × String))
deriving Repr, DecidableEq

/- ## Action functions (source lines 326-486) -/

/- `instance_create` (source lines 326-410).  Iterating a `None` value of
   `disks` or `nics` raises a Python `TypeError` before the POST is sent.
   The `none` case of the wait script is a modelling artifact for a script
   shorter than the poll loop needs; no theorem relies on it. -/
def instance_create (p : Params) (resp : SubmitResp) (polls : List (Nat × JobResp)) :
    Except Failure (Bool × String) × List Call :=
  match p.disks with
  | none => (.error (.typeError "NoneType object is not iterable"), [])
  | some dl =>
    match disksLoop 0 dl with
    | .error e => (.error e, [])
    | .ok disks =>
      match p.nics with
      | none => (.error (.typeError "NoneType object is not iterable"), [])
      | some nl =>
        match nicsLoop 0 nl with
        | .error e => (.error e, [])
        | .ok nics =>
          match osparamsCheck p.osparams with
          | .error e => (.error e, [])
          | .ok osp =>
            let _payload : CreatePayload :=
              { disk_template := p.disk_template
                hypervisor := p.hypervisor
                instance_name := p.name
                os_type := p.os_type.getD "debootstrap+default"
                memory := p.memory
                vcpus := p.vcpus
                pnode := p.pnode
                snode := p.snode
                disks := if disks.length > 0 then some disks else none
                nics := if nics.length > 0 then some nics else none
                osparams := if osp.length > 0 then some osp else none }
            if resp.code ≠ 200 then
              (.error (.failJson (apiFailMsg resp)), [Call.submit "create"])
            else if p.wait then
              match wait_for_job p.job_timeout resp.jobId 0 polls with
              | none => (.error (.failJson "poll script exhausted"), [Call.submit "create"])
              | some o =>
                if ¬ o.success then
                  (.error (.failJson o.message), Call.submit "create" :: jobCalls o)
                else
                  (.ok (true, "Instance " ++ p.name ++ " created"),
                    Call.submit "create" :: jobCalls o)
            else
              (.ok (true, "Create job added"), [Call.submit "create"])

/- `instance_start` (source lines 413-429).  Note the failure prefix of
   line 425 reads "Stop action failed". -/
def instance_start (p : Params) (resp : SubmitResp) (polls : List (Nat × JobResp)) :
    Except Failure (Bool × String) × List Call :=
  if resp.code ≠ 200 then
    (.error (.failJson (apiFailMsg resp)), [Call.submit "startup"])
  else if p.wait then
    match wait_for_job p.job_timeout resp.jobId 0 polls with
    | none => (.error (.failJson "poll script exhausted"), [Call.submit "startup"])
    | some o =>
      if ¬ o.success then
        (.error (.failJson ("Stop action failed: " ++ o.message)),
          Call.submit "startup" :: jobCalls o)
      else
        (.ok (true, "Startup complete"), Call.submit "startup" :: jobCalls o)
  else
    (.ok (true, "Startup signal sent"), [Call.submit "startup"])

/- `instance_stop` (source lines 432-448). -/
def instance_stop (p : Params) (resp : SubmitResp) (polls : List (Nat × JobResp)) :
    Except Failure (Bool × String) × List Call :=
  if resp.code ≠ 200 then
    (.error (.failJson (apiFailMsg resp)), [Call.submit "shutdown"])
  else if p.wait then
    match wait_for_job p.job_timeout resp.jobId 0 polls with
    | none => (.error (.failJson "poll script exhausted"), [Call.submit "shutdown"])
    | some o =>
      if ¬ o.success then
        (.error (.failJson ("Stop action failed: " ++ o.message)),
          Call.submit "shutdown" :: jobCalls o)
      else
        (.ok (true, "Shutdown complete"), Call.submit "shutdown" :: jobCalls o)
  else
    (.ok (true, "Shutdown signal sent"), [Call.submit "shutdown"])

/- `instance_destroy` (source lines 451-467).  The failure prefix of line
   463 reads "Restart action failed". -/
def instance_destroy (p : Params) (resp : SubmitResp) (polls : List (Nat × JobResp)) :
    Except Failure (Bool × String) × List Call :=
  if resp.code ≠ 200 then
    (.error (.failJson (apiFailMsg resp)), [Call.submit "delete"])
  else if p.wait then
    match wait_for_job p.job_timeout resp.jobId 0 polls with
    | none => (.error (.failJson "poll script exhausted"), [Call.submit "delete"])
    | some o =>
      if ¬ o.success then
        (.error (.failJson ("Restart action failed: " ++ o.message)),
          Call.submit "delete" :: jobCalls o)
      else
        (.ok (true, "Destruction complete"), Call.submit "delete" :: jobCalls o)
  else
    (.ok (true, "Destruction signal sent"), [Call.submit "delete"])

/- `instance_restart` (source lines 470-486).  Note the messages of the
   source: success with wait reads "Destruction complete" (line 484),
   failure reads "Destroy action failed" (line 482), and the no-wait
   return reads "Shutdown signal sent" (line 486). -/
def instance_restart (p : Params) (resp : SubmitResp) (polls : List (Nat × JobResp)) :
    Except Failure (Bool × String) × List Call :=
  if resp.code ≠ 200 then
    (.error (.failJson (apiFailMsg resp)), [Call.submit "reboot"])
  else if p.wait then
    match wait_for_job p.job_timeout resp.jobId 0 polls with
    | none => (.error (.failJson "poll script exhausted"), [Call.submit "reboot"])
    | some o =>
      if ¬ o.success then
        (.error (.failJson ("Destroy action failed: " ++ o.message)),
          Call.submit "reboot" :: jobCalls o)
      else
        (.ok (true, "Destruction complete"), Call.submit "reboot" :: jobCalls o)
  else
    (.ok (true, "Shutdown signal sent"), [Call.submit "reboot"])

/- ## `run_module` (source lines 518-604) -/

/- Body of an instance GET response: the HTTP code and the `status` field
   of the JSON body. -/
structure InstResp where
  code : Nat
  status : String
deriving Repr, DecidableEq

/- The environment of one run: the response to the initial instance GET
   (line 561), the response to whichever job submission the run issues,
   the job poll script, and the response to the final instance GET
   (line 596). -/
structure Env where
  lookup1 : InstResp
  action : SubmitResp
  jobPolls : List (Nat × JobResp)
  lookup2 : InstResp
deriving Repr, DecidableEq

/- The dynamic type of the `changed` variable of `run_module`.  It is a
   Python variable: line 589 (`changed = instance_start(module)`) binds it
   to the whole `(bool, str)` pair instead of a bool. -/
inductive ChangedVal
  | b (x : Bool)
  | pair (x : Bool) (m : String)
deriving Repr, DecidableEq

/- The `exit_json` payload of source lines 598-604. -/
structure RunResult where
  changed : ChangedVal
  message : String
  inst : InstResp
deriving Repr, DecidableEq

/- Lifts an action function's result into the `changed`/`message`
   variables: `changed, message = action(module)` tuple unpacking. -/
def liftAction :
    Except Failure (Bool × String) × List Call →
      Except Failure (ChangedVal × String) × List Call
  | (.error e, c) => (.error e, c)
  | (.ok r, c) => (.ok (ChangedVal.b r.1, r.2), c)

/- The decision chain of source lines 565-594, producing the
   `changed`/`message` pair (or a failure) and the network calls made by
   the chosen branch.  `changed` starts as `False` and `message` as the
   empty string (lines 552-553); branches that assign neither fall
   through with those defaults.  The second `state == 'stopped'` branch
   of line 590 is dead code (line 577 catches it first) and is kept for
   fidelity. -/
def runStep (p : Params) (env : Env) :
    Except Failure (ChangedVal × String) × List Call :=
  if env.lookup1.code = 404 then
    if p.state = "present" then
      liftAction (instance_create p env.action env.jobPolls)
    else if p.state = "restarted" ∨ p.state = "started" ∨ p.state = "stopped" then
      (.error (.failJson ("Instance " ++ p.name ++ " is not present, can" ++ apos ++
        "t set to " ++ p.state)), [])
    else
      (.ok (ChangedVal.b false, "No instance found"), [])
  else
    if p.state = "present" then
      (.ok (ChangedVal.b false, "Instance present"), [])
    else if p.state = "stopped" then
      if ¬ (env.lookup1.status = "ADMIN_down" ∨ env.lookup1.status = "ERROR_down") then
        liftAction (instance_stop p env.action env.jobPolls)
      else
        (.ok (ChangedVal.b false, "Instance already stopped, status " ++ env.lookup1.status), [])
    else if p.state = "started" then
      if env.lookup1.status ≠ "running" then
        liftAction (instance_start p env.action env.jobPolls)
      else
        (.ok (ChangedVal.b false, ""), [])
    else if p.state = "restarted" then
      if env.lookup1.status = "running" then
        liftAction (instance_restart p env.action env.jobPolls)
      else
        match instance_start p env.action env.jobPolls with
        | (.error e, c) => (.error e, c)
        | (.ok r, c) => (.ok (ChangedVal.pair r.1 r.2, ""), c)
    else if p.state = "stopped" then
      if env.lookup1.status = "running" then
        liftAction (instance_stop p env.action env.jobPolls)
      else
        (.ok (ChangedVal.b false, ""), [])
    else if p.state = "absent" then
      liftAction (instance_destroy p env.action env.jobPolls)
    else
      (.ok (ChangedVal.b false, ""), [])

/- `run_module`: initial lookup, decision chain, and — on every
   non-failing path — the final instance GET of line 596 whose body
   becomes the `instance` field of the result. -/
def run_module (p : Params) (env : Env) : Except Failure RunResult × List Call :=
  match runStep p env with
  | (.error e, c) => (.error e, Call.getInstance :: c)
  | (.ok r, c) =>
    (.ok { changed := r.1, message := r.2, inst := env.lookup2 },
      Call.getInstance :: (c ++ [Call.getInstance]))

end Ganeti

namespace Ganeti

/- ## Sample concrete inputs, used by counterexamples and witnesses -/

def sampleParams : Params :=
  { name := "vm0", state := "present", wait := true, job_timeout := 300,
    disk_template := "plain", hypervisor := "kvm", os_type := none,
    pnode := none, snode := none, memory := none, vcpus := none,
    disks := none, nics := none, osparams := [] }

def env404 : Env :=
  { lookup1 := ⟨404, ""⟩, action := ⟨200, "3", 3⟩,
    jobPolls := [(0, ⟨200, "success", none⟩)], lookup2 := ⟨404, ""⟩ }

def envDown : Env :=
  { lookup1 := ⟨200, "ADMIN_down"⟩, action := ⟨200, "3", 3⟩,
    jobPolls := [(0, ⟨200, "success", none⟩)], lookup2 := ⟨200, "running"⟩ }

end Ganeti

namespace Ganeti

/- ## Helper lemmas -/

theorem isPrefixL_self (l : List Char) : isPrefixL l l = true := by
  induction l with
  | nil => rfl
  | cons a as ih => simp [isPrefixL, ih]

theorem isInfixL_append (a b : List Char) : isInfixL b (a ++ b) = true := by
  induction a with
  | nil =>
    cases b with
    | nil => rfl
    | cons c cs => simp [isInfixL, isPrefixL_self]
  | cons c cs ih => simp [isInfixL, ih]

theorem strContains_append (a b : String) : strContains (a ++ b) b = true := by
  simp [strContains, String.data_append, isInfixL_append]

theorem diskCheck_first_bad (i : Nat) :
    ∀ (d : List (String × String)) (k v : String), (k, v) ∈ d → k ∉ DISK_PARAMETERS →
      ∃ k2 v2, (k2, v2) ∈ d ∧ k2 ∉ DISK_PARAMETERS ∧
        diskCheck i d = Except.error (Failure.failJson
          ("Invalid disk parameter for disk #" ++ toString i ++ ": " ++ k2 ++
            " is not a valid key")) := by
  intro d
  induction d with
  | nil => intro k v hmem _; exact absurd hmem (List.not_mem_nil _)
  | cons a rest ih =>
    intro k v hmem hbad
    obtain ⟨ak, av⟩ := a
    by_cases hak : ak ∈ DISK_PARAMETERS
    · have hrest : (k, v) ∈ rest := by
        rcases List.mem_cons.mp hmem with heq | h
        · injection heq with h1 h2
          subst h1
          exact absurd hak hbad
        · exact h
      obtain ⟨k2, v2, hm, hb, he⟩ := ih k v hrest hbad
      exact ⟨k2, v2, List.mem_cons_of_mem _ hm, hb, by simp [diskCheck, hak, he]⟩
    · exact ⟨ak, av, List.mem_cons_self _ _, hak, by simp [diskCheck, hak]⟩

/- ## Claim theorems -/

/-- C1: the claim says a `restarted` run on a non-running instance issues
start() and still returns `changed` as a boolean with the started path's
result shape.  The code does issue start(), but line 589 of the source
binds the whole `(bool, str)` pair returned by `instance_start` to the
`changed` variable, so the run's `changed` is the tuple
`(True, "Startup complete")` — not a boolean — and `message` stays empty.
This theorem evaluates the modelled code at the failing input. -/
theorem c1_restarted_nonrunning_changed_tuple :
    run_module { sampleParams with state := "restarted" } envDown =
      (Except.ok ⟨ChangedVal.pair true "Startup complete", "", ⟨200, "running"⟩⟩,
        [Call.getInstance, Call.submit "startup", Call.getJob, Call.getInstance]) ∧
    (∀ x : Bool, ChangedVal.pair true "Startup complete" ≠ ChangedVal.b x) := by decide

/-- C2 counterexample: a terminal `error` job with
`opresult = [["NodeUnreachable", "node down"]]` produces the failure
message "Job 7 failed: node down" — the second element of the first
entry — which does not contain "NodeUnreachable". -/
theorem c2_counterexample :
    wait_for_job 300 7 0 [(0, ⟨200, "error", some [["NodeUnreachable", "node down"]]⟩)] =
      some ⟨false, "Job 7 failed: node down", 0, 1, 0⟩ ∧
    strContains "Job 7 failed: node down" "NodeUnreachable" = false := by decide

/-- C2 (amended): whenever a poll returns a terminal non-success status,
the waiter fails with a message containing `opresult[0][1]` — the second
element of the first opresult entry — when opresult is present and
non-empty, and with the generic `failed with status S` message when
opresult is absent or empty. -/
theorem c2_failure_detail (job_id timeout ts t n d : Nat) (js : JobResp)
    (rest : List (Nat × JobResp)) (h200 : js.code = 200) (hterm : js.status ∈ TERMINAL)
    (hns : js.status ≠ "success") :
    (∀ l, js.opresult = some l → l ≠ [] →
      waitAux job_id timeout ts t n ((d, js) :: rest) =
        some ⟨false, "Job " ++ toString job_id ++ " failed: " ++ ((l.headD []).getD 1 ""),
          t + d, n + 1, d⟩ ∧
      strContains ("Job " ++ toString job_id ++ " failed: " ++ ((l.headD []).getD 1 ""))
        ((l.headD []).getD 1 "") = true) ∧
    ((js.opresult = none ∨ js.opresult = some []) →
      waitAux job_id timeout ts t n ((d, js) :: rest) =
        some ⟨false, "Job " ++ toString job_id ++ " failed with status \"" ++ js.status ++ "\"",
          t + d, n + 1, d⟩) := by
  obtain ⟨code, status, opr⟩ := js
  simp only at h200 hterm hns
  subst h200
  constructor
  · intro l hl hne
    subst hl
    constructor
    · simp [waitAux, hterm, hns, failMsg, List.length_pos.mpr hne]
    · exact strContains_append _ _
  · intro hor
    rcases hor with h | h <;> subst h <;> simp [waitAux, hterm, hns, failMsg]

/-- C2 witness: the amended failure-detail theorem applied to the poll
response with status error and opresult `[["NodeUnreachable", "node down"]]`. -/
theorem c2_failure_detail_witness :
    waitAux 7 300 0 0 0 [(0, ⟨200, "error", some [["NodeUnreachable", "node down"]]⟩)] =
      some ⟨false, "Job " ++ toString 7 ++ " failed: " ++
        (([["NodeUnreachable", "node down"]].headD []).getD 1 ""), 0 + 0, 0 + 1, 0⟩ :=
  (((c2_failure_detail 7 300 0 0 0 0 ⟨200, "error", some [["NodeUnreachable", "node down"]]⟩ []
    rfl (by decide) (by decide)).1 [["NodeUnreachable", "node down"]] rfl (by decide))).1

/-- C3 counterexample: with script `[running, running, running]`, poll
interval 2 and timeout 3, the waiter returns the timeout failure after
the 3rd poll (the outcome records 3 polls), and with only two scripted
responses it has not yet returned — so "after the 2nd poll" is false. -/
theorem c3_counterexample :
    wait_for_job 3 5 0 [(0, ⟨200, "running", none⟩), (0, ⟨200, "running", none⟩),
      (0, ⟨200, "running", none⟩)] =
      some ⟨false, timeoutMsg 5 0 3 4, 4, 3, 0⟩ ∧
    wait_for_job 3 5 0 [(0, ⟨200, "running", none⟩), (0, ⟨200, "running", none⟩)] = none := by
  decide

/-- C3 (amended): with responses `[running, running, success]`, interval 2
and timeout 10, the waiter returns `(true, "Success")` after exactly 3
polls; with `[running, running, running]`, timeout 3 and instantaneous
polls, it returns the timeout failure — whose message includes the start
time, the timeout value and the current time — after the 3rd poll. -/
theorem c3_scripted_runs :
    wait_for_job 10 5 0 [(0, ⟨200, "running", none⟩), (0, ⟨200, "running", none⟩),
      (0, ⟨200, "success", none⟩)] = some ⟨true, "Success", 4, 3, 0⟩ ∧
    wait_for_job 3 5 0 [(0, ⟨200, "running", none⟩), (0, ⟨200, "running", none⟩),
      (0, ⟨200, "running", none⟩)] =
      some ⟨false, timeoutMsg 5 0 3 4, 4, 3, 0⟩ := by decide

/-- C4 counterexample: with timeout 3 and three instantaneous
(`d = 0`) non-terminal polls, failure is declared at time 4, which
exceeds start time + timeout + the last poll's in-flight duration
(0 + 3 + 0 = 3): the extra sleep interval is not accounted for by the
claim. -/
theorem c4_counterexample :
    wait_for_job 3 9 0 [(0, ⟨200, "running", none⟩), (0, ⟨200, "running", none⟩),
      (0, ⟨200, "running", none⟩)] =
      some ⟨false, timeoutMsg 9 0 3 4, 4, 3, 0⟩ ∧
    0 + 3 + 0 < 4 := by decide

/-- C4 (amended): on a script of non-terminal 200-responses the waiter
can only declare failure (never success), and the declaration instant is
bounded by start time + timeout + one sleep interval (2 time units) +
the in-flight duration of the last poll. -/
theorem c4_timeout_bound (job_id timeout ts_start : Nat) (polls : List (Nat × JobResp))
    (hall : ∀ pr ∈ polls, (pr.2).code = 200 ∧ (pr.2).status ∉ TERMINAL) :
    ∀ t n o, t ≤ ts_start + timeout + 2 →
      waitAux job_id timeout ts_start t n polls = some o →
      o.success = false ∧ o.finish ≤ ts_start + timeout + 2 + o.lastDur := by
  induction polls with
  | nil => intro t n o _ h; simp [waitAux] at h
  | cons pr rest ih =>
    intro t n o ht h
    obtain ⟨d, js⟩ := pr
    obtain ⟨h200, hnt⟩ := hall _ (List.mem_cons_self _ _)
    obtain ⟨code, status, opr⟩ := js
    simp only at h200 hnt
    subst h200
    simp only [waitAux, ne_eq, not_true_eq_false, if_false, reduceIte, hnt,
      not_false_eq_true, if_true] at h
    split at h
    · obtain rfl : (⟨false, timeoutMsg job_id ts_start timeout (t + d), t + d, n + 1, d⟩ :
        WaitOutcome) = o := Option.some.inj h
      refine ⟨rfl, ?_⟩
      simp only
      omega
    · exact ih (fun q hq => hall q (List.mem_cons_of_mem _ hq)) (t + d + 2) (n + 1) o
        (by omega) h

/-- C4 witness: the bound applied to a single non-terminal poll of
duration 1 with timeout 0, which declares failure at time 1. -/
theorem c4_timeout_bound_witness :
    (WaitOutcome.mk false (timeoutMsg 5 0 0 1) 1 1 1).success = false ∧
    (WaitOutcome.mk false (timeoutMsg 5 0 0 1) 1 1 1).finish ≤
      0 + 0 + 2 + (WaitOutcome.mk false (timeoutMsg 5 0 0 1) 1 1 1).lastDur :=
  c4_timeout_bound 5 0 0 [(1, ⟨200, "running", none⟩)] (by decide) 0 0
    ⟨false, timeoutMsg 5 0 0 1, 1, 1, 1⟩ (by decide) (by decide)

/-- C5 counterexample: the absent/NotFound run does return
`(false, "No instance found")`, but its trace is two instance GETs — the
unconditional final read of source line 596 — so "zero network calls
beyond the initial lookup ... no further instance read" is false. -/
theorem c5_counterexample :
    run_module { sampleParams with state := "absent" } env404 =
      (Except.ok ⟨ChangedVal.b false, "No instance found", ⟨404, ""⟩⟩,
        [Call.getInstance, Call.getInstance]) ∧
    [Call.getInstance, Call.getInstance] ≠ [Call.getInstance] := by decide

/-- C5 (amended): when desired is absent and the initial lookup returns
404, the run returns `(false, "No instance found")`, submits no job and
polls no job; the only network call beyond the initial lookup is the
single final instance read of line 596 that populates the result
payload. -/
theorem c5_absent_notfound (p : Params) (env : Env) (hst : p.state = "absent")
    (h404 : env.lookup1.code = 404) :
    run_module p env =
      (Except.ok ⟨ChangedVal.b false, "No instance found", env.lookup2⟩,
        [Call.getInstance, Call.getInstance]) := by
  simp [run_module, runStep, hst, h404]

/-- C5 witness: the amended theorem at the concrete absent/404 input. -/
theorem c5_absent_notfound_witness :
    run_module { sampleParams with state := "absent" } env404 =
      (Except.ok ⟨ChangedVal.b false, "No instance found", env404.lookup2⟩,
        [Call.getInstance, Call.getInstance]) :=
  c5_absent_notfound { sampleParams with state := "absent" } env404 rfl rfl

/-- C6: when desired is started, stopped or restarted and the initial
lookup returns 404, the run fails with a message naming the instance and
the requested state, and the trace is the initial lookup only — no
create or other job is submitted. -/
theorem c6_precondition (p : Params) (env : Env)
    (hst : p.state = "restarted" ∨ p.state = "started" ∨ p.state = "stopped")
    (h404 : env.lookup1.code = 404) :
    run_module p env =
      (Except.error (Failure.failJson ("Instance " ++ p.name ++ " is not present, can" ++
        apos ++ "t set to " ++ p.state)), [Call.getInstance]) := by
  rcases hst with h | h | h <;> simp [run_module, runStep, h, h404]

/-- C6 witness: the precondition theorem at state started against a 404
lookup. -/
theorem c6_precondition_witness :
    run_module { sampleParams with state := "started" } env404 =
      (Except.error (Failure.failJson ("Instance " ++
        ({ sampleParams with state := "started" } : Params).name ++ " is not present, can" ++
        apos ++ "t set to " ++ ({ sampleParams with state := "started" } : Params).state)),
        [Call.getInstance]) :=
  c6_precondition { sampleParams with state := "started" } env404 (Or.inr (Or.inl rfl)) rfl

/-- C7: when desired is present and the instance is found, the run
submits no job (the trace is the initial and the final instance GET
only) and returns changed=false with message "Instance present"; a
repeated application against any found instance yields the same no-op
result. -/
theorem c7_present_idempotent (p : Params) (env env2 : Env) (hst : p.state = "present")
    (h1 : env.lookup1.code ≠ 404) (h2 : env2.lookup1.code ≠ 404) :
    run_module p env =
      (Except.ok ⟨ChangedVal.b false, "Instance present", env.lookup2⟩,
        [Call.getInstance, Call.getInstance]) ∧
    (run_module p env2).1 = Except.ok ⟨ChangedVal.b false, "Instance present", env2.lookup2⟩ := by
  constructor <;> simp [run_module, runStep, hst, h1, h2]

/-- C7 witness: the idempotence theorem at a found (running) instance. -/
theorem c7_present_idempotent_witness :
    run_module sampleParams envDown =
      (Except.ok ⟨ChangedVal.b false, "Instance present", envDown.lookup2⟩,
        [Call.getInstance, Call.getInstance]) ∧
    (run_module sampleParams envDown).1 =
      Except.ok ⟨ChangedVal.b false, "Instance present", envDown.lookup2⟩ :=
  c7_present_idempotent sampleParams envDown envDown rfl (by decide) (by decide)

/-- C8: in the disk translator, a disk carrying `size` whose provider is
"ext" is forwarded verbatim; a disk whose provider is not "ext" and that
carries any key outside {size, mode, name, provider} is rejected with a
message naming the disk index and an offending key; and a failing disk
list aborts `instance_create` before any network call (no payload is
sent). -/
theorem c8_disk_translation (i : Nat) (d : Disk) (hsize : (getKey "size" d).isSome = true) :
    (getKey "provider" d = some "ext" → diskTranslate i d = Except.ok d) ∧
    (getKey "provider" d ≠ some "ext" →
      ∀ k v, (k, v) ∈ d → k ∉ DISK_PARAMETERS →
        ∃ k2 v2, (k2, v2) ∈ d ∧ k2 ∉ DISK_PARAMETERS ∧
          diskTranslate i d = Except.error (Failure.failJson
            ("Invalid disk parameter for disk #" ++ toString i ++ ": " ++ k2 ++
              " is not a valid key"))) ∧
    (∀ (e : Failure) (dl : List Disk) (p : Params) (resp : SubmitResp)
        (polls : List (Nat × JobResp)),
      p.disks = some dl → disksLoop 0 dl = Except.error e →
        instance_create p resp polls = (Except.error e, [])) := by
  have hnone : (getKey "size" d).isNone = false := by
    cases hx : getKey "size" d
    · rw [hx] at hsize; cases hsize
    · rfl
  refine ⟨?_, ?_, ?_⟩
  · intro hext
    simp [diskTranslate, hnone, hext]
  · intro hext k v hm hb
    obtain ⟨k2, v2, h1, h2, h3⟩ := diskCheck_first_bad i d k v hm hb
    exact ⟨k2, v2, h1, h2, by simp [diskTranslate, hnone, hext, h3]⟩
  · intro e dl p resp polls hdk hloop
    simp [instance_create, hdk, hloop]

/-- C8 witness: an ext disk with an extra key is forwarded verbatim; the
same extra key without the ext provider is rejected naming disk index 0
and the key. -/
theorem c8_disk_translation_witness :
    diskTranslate 0 [("size", "10"), ("foo", "x"), ("provider", "ext")] =
      Except.ok [("size", "10"), ("foo", "x"), ("provider", "ext")] ∧
    (∃ k2 v2, (k2, v2) ∈ ([("size", "10"), ("foo", "x")] : Disk) ∧ k2 ∉ DISK_PARAMETERS ∧
      diskTranslate 0 [("size", "10"), ("foo", "x")] = Except.error (Failure.failJson
        ("Invalid disk parameter for disk #" ++ toString 0 ++ ": " ++ k2 ++
          " is not a valid key"))) :=
  ⟨(c8_disk_translation 0 [("size", "10"), ("foo", "x"), ("provider", "ext")] (by decide)).1 rfl,
    (c8_disk_translation 0 [("size", "10"), ("foo", "x")] (by decide)).2.1 (by decide)
      "foo" "x" (by decide) (by decide)⟩

/-- C9: the argument-spec defaults leave omitted `disks` and `nics` as
None; with state=present and the instance not found, `instance_create`
iterates the None value and raises a TypeError before any creation
request is sent (the trace is the initial lookup only). -/
theorem c9_none_disks_nics (p : Params) (env : Env) (hst : p.state = "present")
    (h404 : env.lookup1.code = 404) :
    disks_default = none ∧ nics_default = none ∧
    (p.disks = none →
      run_module p env = (Except.error (Failure.typeError "NoneType object is not iterable"),
        [Call.getInstance])) ∧
    (∀ dl r, p.disks = some dl → disksLoop 0 dl = Except.ok r → p.nics = none →
      run_module p env = (Except.error (Failure.typeError "NoneType object is not iterable"),
        [Call.getInstance])) := by
  refine ⟨rfl, rfl, ?_, ?_⟩
  · intro hd
    simp [run_module, runStep, instance_create, liftAction, hst, h404, hd]
  · intro dl r hd hl hn
    simp [run_module, runStep, instance_create, liftAction, hst, h404, hd, hl, hn]

/-- C9 witness: the TypeError theorem at the default parameters (both
disks and nics omitted) against a 404 lookup. -/
theorem c9_none_disks_nics_witness :
    run_module sampleParams env404 =
      (Except.error (Failure.typeError "NoneType object is not iterable"),
        [Call.getInstance]) :=
  (c9_none_disks_nics sampleParams env404 rfl rfl).2.2.1 rfl

/-- C10: `instance_restart` returns "Destruction complete" on success
with wait, "Shutdown signal sent" without wait, and fails with the
prefix "Destroy action failed" on job failure; `instance_start` fails
with the prefix "Stop action failed" — no restart-specific message
exists. -/
theorem c10_restart_messages (p : Params) (resp : SubmitResp) (polls : List (Nat × JobResp))
    (h200 : resp.code = 200) :
    (p.wait = false →
      instance_restart p resp polls = (Except.ok (true, "Shutdown signal sent"),
        [Call.submit "reboot"])) ∧
    (∀ o, p.wait = true → wait_for_job p.job_timeout resp.jobId 0 polls = some o →
      (o.success = true →
        instance_restart p resp polls = (Except.ok (true, "Destruction complete"),
          Call.submit "reboot" :: jobCalls o)) ∧
      (o.success = false →
        instance_restart p resp polls =
          (Except.error (Failure.failJson ("Destroy action failed: " ++ o.message)),
            Call.submit "reboot" :: jobCalls o) ∧
        instance_start p resp polls =
          (Except.error (Failure.failJson ("Stop action failed: " ++ o.message)),
            Call.submit "startup" :: jobCalls o))) := by
  refine ⟨?_, ?_⟩
  · intro hw
    simp [instance_restart, h200, hw]
  · intro o hw hwfj
    refine ⟨?_, ?_⟩
    · intro hs
      simp [instance_restart, h200, hw, hwfj, hs]
    · intro hs
      constructor <;> simp [instance_restart, instance_start, h200, hw, hwfj, hs]

/-- C10 witness: a restart whose job succeeds after one poll yields
"Destruction complete". -/
theorem c10_restart_messages_witness :
    instance_restart sampleParams ⟨200, "3", 3⟩ [(0, ⟨200, "success", none⟩)] =
      (Except.ok (true, "Destruction complete"),
        Call.submit "reboot" :: jobCalls ⟨true, "Success", 0, 1, 0⟩) :=
  ((c10_restart_messages sampleParams ⟨200, "3", 3⟩ [(0, ⟨200, "success", none⟩)] rfl).2
    ⟨true, "Success", 0, 1, 0⟩ rfl (by decide)).1 rfl

end Ganeti
